import Mathlib

/-!
Shallow embedding of the tradingview-oanda webhook relay (a family of
near-duplicate Express servers translating alert webhooks into OANDA
REST calls).  Each namespace below embeds one source variant:

* `Fmt` : the price formatter `fmtPrice` / `PRECISION_MAP` of the second
  variant in `src/server.js` (toFixed on the configured precision).
* `V1`  : the first variant in `src/server.js` (substring side detection,
  EXIT branch computing `closeUnits = longUnits - shortUnits`); the same
  side-detection logic appears in `src/unnamed/part_000`.
* `V2`  : the second variant in `src/server.js` (cooldown maps
  `lastOrderTime` / `lastEntryTime`, GET-free close, LIMIT placement).
* `P3`  : the first variant in `src/unnamed/part_003` (getPosition via
  openPositions, closeAllSafe, post-close cooldown on `lastCloseTime`).
* `P4`  : the variant in `src/unnamed/part_004` (side-keyed cooldown,
  reversal close before LIMIT placement, ZONE_EXIT clearing
  `lastEntrySide`).
* `Gate`: the `processing` mutual-exclusion flag of part_003/part_004,
  modelled as an interleaving machine over two requests (the JS event
  loop runs the synchronous check-and-set atomically; awaited broker
  calls are the yield points).

Times and units are `Int` (all arithmetic on them in the sources is
integer-valued); broker responses are supplied by explicit oracle
structures, one field per HTTP exchange the handler performs.
-/

/-- Direction of an entry signal ("buy"/"LONG" vs "sell"/"SHORT"). -/
inductive Side
  | long
  | short
deriving DecidableEq, Repr

/-- One outbound broker HTTP call, as recorded in a request trace.
`marketOrder` is a POST /orders MARKET order (used both for entries in V1
and for the netting close in P3/P4), `limitOrder` a POST /orders LIMIT
order, `putClose` the PUT /positions/:symbol/close used by V2. -/
inductive Call
  | getPendingOrders
  | cancelOrder (id : String)
  | getOpenPositions
  | marketOrder (symbol : String) (units : Int)
  | limitOrder (symbol : String) (units : Int)
  | putClose (symbol : String)
deriving DecidableEq, Repr

/-- Is the call a LIMIT placement? -/
def Call.isLimit : Call → Bool
  | .limitOrder _ _ => true
  | _ => false

/-- Is the call a MARKET order? -/
def Call.isMarket : Call → Bool
  | .marketOrder _ _ => true
  | _ => false

/-- Number of LIMIT placements in a trace. -/
def countLimit (tr : List Call) : Nat := (tr.filter Call.isLimit).length

/-- Does the trace contain a LIMIT placement? -/
def hasLimit (tr : List Call) : Bool := tr.any Call.isLimit

/-- No MARKET order anywhere in the list. -/
def noMarket (tr : List Call) : Bool := tr.all fun c => !c.isMarket

/-- After the first LIMIT placement in the trace, no MARKET (close) order
occurs.  Together with the fact that the handlers emit at most one LIMIT
order this expresses close-before-place ordering. -/
def noCloseAfterPlace : List Call → Bool
  | [] => true
  | Call.limitOrder _ _ :: rest => noMarket rest
  | _ :: rest => noCloseAfterPlace rest

/-- One element of the `positions` array of an openPositions response:
instrument plus the parsed `long.units` and `short.units` values (OANDA
reports `short.units` as a non-positive number). -/
structure BrokerPos where
  instrument : String
  long : Int
  short : Int
deriving DecidableEq, Repr

/-- Body of an openPositions HTTP exchange as seen by `fetchJSON` in
part_003/part_004 (which never consults `res.ok`):
`positionsPayload` is a JSON body carrying a `positions` array,
`otherJson` any other JSON body (e.g. a 401 error object), `notJson` an
unparseable body (JSON.parse throws, fetchJSON returns `{}`), and
`networkThrow` a rejected fetch promise (propagates to the route catch). -/
inductive RespBody
  | positionsPayload (positions : List BrokerPos)
  | otherJson
  | notJson
  | networkThrow
deriving DecidableEq, Repr

/-- `r.positions ?? []` after `fetchJSON`: only a parsed body with a
`positions` field yields entries; an error object or `{}` yields `[]`. -/
def parsePositions : RespBody → List BrokerPos
  | .positionsPayload l => l
  | _ => []

/-- `getPosition(symbol)` of part_003/part_004: find the entry for the
instrument; `.error` models the fetch promise rejecting (a thrown network
error reaching the route-level catch). -/
def getPositionR (sym : String) (body : RespBody) : Except Unit (Option BrokerPos) :=
  match body with
  | .networkThrow => .error ()
  | b => .ok ((parsePositions b).find? fun p => p.instrument == sym)

/-- Does `chars` start with `sub` (character-wise)? -/
def charsStartWith : List Char → List Char → Bool
  | [], _ => true
  | _ :: _, [] => false
  | a :: as, b :: bs => a == b && charsStartWith as bs

/-- Does the list contain `sub` as a contiguous run? -/
def charsContain (sub : List Char) : List Char → Bool
  | [] => charsStartWith sub []
  | b :: bs => charsStartWith sub (b :: bs) || charsContain sub bs

/-- JavaScript `s.includes(sub)` on strings. -/
def strIncludes (s sub : String) : Bool := charsContain sub.data s.data

namespace Fmt

/-- PRECISION_MAP of server.js (second variant): decimals per symbol. -/
def PRECISION_MAP (s : String) : Option Nat :=
  if s = "USD_JPY" then some 3
  else if s = "EUR_USD" then some 5
  else none

/-- Left-pad a digit string with zeros to length `d`. -/
def padZeros (d : Nat) (s : String) : String :=
  String.mk (List.replicate (d - s.length) '0') ++ s

/-- Render the scaled integer value `n` (the price times `10 ^ d`) with
`d` decimals. -/
def renderFixed (n d : Nat) : String :=
  if d = 0 then toString n
  else toString (n / 10 ^ d) ++ "." ++ padZeros d (toString (n % 10 ^ d))

/-- `Number(p).toFixed(d)` for a non-negative price: round the scaled
value to the nearest integer (exact at the claimed inputs, where the
decimal is representable and no tie arises) and render `d` decimals. -/
def fmtFixed (p : ℚ) (d : Nat) : String :=
  renderFixed (round (p * (10 : ℚ) ^ d)).toNat d

/-- `fmtPrice` of server.js (second variant):
`Number(p).toFixed(PRECISION_MAP[s] ?? 3)`. -/
def fmtPrice (p : ℚ) (s : String) : String :=
  fmtFixed p ((PRECISION_MAP s).getD 3)

end Fmt

namespace V1

/-- HTTP responses the first server.js variant can send. -/
inductive Outcome
  | invalidPayload
  | positionClosed
  | orderExecuted
deriving DecidableEq, Repr

/-- Broker responses consumed by one request: the `positions` array of
the openPositions response (only read on the EXIT branch). -/
structure Oracle where
  positions : List BrokerPos
deriving Repr

/-- FIXED_UNITS of the first server.js variant. -/
def FIXED_UNITS : Int := 20000

/-- The /webhook handler of the first variant in src/server.js
(lines 16-71): empty alert or symbol is a 400; an alert containing
"EXIT" reads openPositions and, when the found position has
`closeUnits = longUnits - shortUnits` nonzero, sends a MARKET order for
`-closeUnits`; any other alert is an entry whose side is
`alert.includes("LONG") ? "buy" : "sell"` with units `±FIXED_UNITS`,
sent as a MARKET order.  (The stopLoss/takeProfit strings attached to
the entry body do not affect which call is made and are not recorded.) -/
def handle (alert symbol : String) (o : Oracle) : Outcome × List Call :=
  if alert = "" ∨ symbol = "" then (.invalidPayload, [])
  else if strIncludes alert "EXIT" then
    match o.positions.find? (fun p => p.instrument == symbol) with
    | none => (.positionClosed, [.getOpenPositions])
    | some p =>
      let closeUnits := p.long - p.short
      if closeUnits = 0 then (.positionClosed, [.getOpenPositions])
      else (.positionClosed, [.getOpenPositions, .marketOrder symbol (-closeUnits)])
  else
    let side : Side := if strIncludes alert "LONG" then .long else .short
    let units : Int := if side = .long then FIXED_UNITS else -FIXED_UNITS
    (.orderExecuted, [.marketOrder symbol units])

end V1

namespace V2

/-- Result of one `fetchJSON` exchange in the second server.js variant:
non-2xx responses are turned into an `{error:true,status,body}` object
(never thrown), so the handler observes `httpError` only if it inspects
the returned value — which it never does. -/
inductive FetchResult
  | success
  | httpError (status : Int)
deriving DecidableEq, Repr

/-- Process-wide cooldown maps of the second server.js variant:
`lastOrderTime[symbol]` and `lastEntryTime[symbol]` (JS objects; a
missing key reads as `undefined`, and `x ?? 0` turns it into 0). -/
structure State where
  lastOrderTime : String → Option Int
  lastEntryTime : String → Option Int

/-- Broker responses available to one request (the handler discards the
results of both `closePosition` and `placeLimit`). -/
structure Oracle where
  closeResp : FetchResult
  placeResp : FetchResult
deriving Repr

/-- Responses the second server.js variant sends from /webhook. -/
inductive Outcome
  | ok
  | skipped (reason : String)
  | okFalse (error : String)
deriving DecidableEq, Repr

/-- ORDER_COOLDOWN_MS of the second server.js variant. -/
def ORDER_COOLDOWN_MS : Int := 30000

/-- EXIT_COOLDOWN_MS of the second server.js variant. -/
def EXIT_COOLDOWN_MS : Int := 3000

/-- FIXED_UNITS of the second server.js variant. -/
def FIXED_UNITS : Int := 20000

/-- `m[sym] = t` on a JS object used as a map. -/
def setTime (m : String → Option Int) (sym : String) (t : Int) :
    String → Option Int :=
  fun s => if s = sym then some t else m s

/-- The /webhook handler of the second variant in src/server.js
(lines 186-243).  EXIT: skipped when within EXIT_COOLDOWN_MS of the last
recorded entry time, else `closePosition` (a PUT positions/close) and
`{ok:true}` — nothing is recorded.  Otherwise (entry): skipped when
within ORDER_COOLDOWN_MS of the last order time; unknown alerts are
skipped; else `closePosition` then `placeLimit`, after which both
timestamps are set to `now` and `{ok:true}` is returned regardless of
the broker responses (both `await` results are discarded; `fetchJSON`
never throws on a non-2xx response). -/
def handle (now : Int) (alert sym : String) (st : State) (o : Oracle) :
    Outcome × State × List Call :=
  if alert = "EXIT" then
    if now - ((st.lastEntryTime sym).getD 0) < EXIT_COOLDOWN_MS then
      (.skipped "entry cooldown", st, [])
    else
      (.ok, st, [.putClose sym])
  else
    if now - ((st.lastOrderTime sym).getD 0) < ORDER_COOLDOWN_MS then
      (.skipped "order cooldown", st, [])
    else
      let units : Int :=
        if alert = "LONG_LIMIT" then FIXED_UNITS
        else if alert = "SHORT_LIMIT" then -FIXED_UNITS
        else 0
      if units = 0 then (.skipped "unknown alert", st, [])
      else
        (.ok,
         { lastOrderTime := setTime st.lastOrderTime sym now,
           lastEntryTime := setTime st.lastEntryTime sym now },
         [.putClose sym, .limitOrder sym units])

/-- The empty cooldown state (fresh process). -/
def emptyState : State := ⟨fun _ => none, fun _ => none⟩

end V2

/-- `closeAllSafe(symbol)` (identical in part_003 and part_004): re-read
the position via openPositions; no position, or zero units on both
sides, counts as success with no close order; otherwise send one MARKET
FOK order for minus the open side (the short branch overrides the long
branch, mirroring the two sequential assignments) and succeed iff the
response carries an `orderFillTransaction` (`closeFill`).  The first
component is `none` when the position read inside it throws. -/
def closeAllSafe (sym : String) (posBody2 : RespBody) (closeFill : Bool) :
    Option Bool × List Call :=
  match getPositionR sym posBody2 with
  | .error _ => (none, [.getOpenPositions])
  | .ok none => (some true, [.getOpenPositions])
  | .ok (some p) =>
    let u : Int := if p.short < 0 then -p.short
                   else if p.long > 0 then -p.long else 0
    if u = 0 then (some true, [.getOpenPositions])
    else (some closeFill, [.getOpenPositions, .marketOrder sym u])

/-- Every call in the list is a non-LIMIT call. -/
def noLimit (tr : List Call) : Bool := tr.all fun c => !c.isLimit

namespace P3

/-- Module state of the part_003 variant: `lastCloseTime` (the
`processing` flag is modelled by the `Gate` machine below). -/
structure State where
  lastCloseTime : Int
deriving DecidableEq, Repr

/-- Broker responses available to one part_003 request. -/
structure Oracle where
  pending : List String
  posBody : RespBody
  posBody2 : RespBody
  closeFill : Bool
deriving DecidableEq, Repr

/-- Responses the part_003 webhook sends. -/
inductive Outcome
  | ok
  | skippedTrue
  | closeFailed
  | errorTrue
deriving DecidableEq, Repr

/-- COOLDOWN_MS of part_003. -/
def COOLDOWN_MS : Int := 8000

/-- FIXED_UNITS of part_003. -/
def FIXED_UNITS : Int := 20000

/-- `cooldownActive()` of part_003: within COOLDOWN_MS of the last
recorded close. -/
def cooldownActive (st : State) (now : Int) : Bool :=
  now - st.lastCloseTime < COOLDOWN_MS

/-- `cancelAll(symbol)`: GET pendingOrders then a PUT cancel per
matching order id (all results ignored). -/
def cancelTrace (o : Oracle) : List Call :=
  Call.getPendingOrders :: o.pending.map Call.cancelOrder

/-- The ENTRY path of the part_003 webhook (lines 200-244; the
`processing` gate is the `Gate` machine, the ZONE_EXIT branch is not
needed by the claims).  Unknown alerts and cooldown hits are skipped;
then cancelAll, getPosition (a thrown read reaches the route catch as a
500), an existing nonzero position triggers closeAllSafe with a
close-failure aborting the request; after a successful reversal close
`lastCloseTime` is set and the re-checked cooldown (compared against the
clock an instant after that assignment, collapsed to `now` here exactly
as at the real clock where 0 ms have elapsed) skips the request;
otherwise the LIMIT order is placed. -/
def entry (o : Oracle) (st : State) (now : Int) (alert sym : String) :
    Outcome × State × List Call :=
  let units : Int :=
    if alert = "LONG_LIMIT" then FIXED_UNITS
    else if alert = "SHORT_LIMIT" then -FIXED_UNITS
    else 0
  if units = 0 then (.skippedTrue, st, [])
  else if cooldownActive st now then (.skippedTrue, st, [])
  else
    let tr1 := cancelTrace o
    match getPositionR sym o.posBody with
    | .error _ => (.errorTrue, st, tr1 ++ [.getOpenPositions])
    | .ok pos =>
      let tr2 := tr1 ++ [.getOpenPositions]
      let nonzero : Bool := match pos with
        | none => false
        | some p => p.long != 0 || p.short != 0
      if nonzero then
        match closeAllSafe sym o.posBody2 o.closeFill with
        | (none, tr3) => (.errorTrue, st, tr2 ++ tr3)
        | (some false, tr3) => (.closeFailed, st, tr2 ++ tr3)
        | (some true, tr3) =>
          let st2 : State := ⟨now⟩
          if cooldownActive st2 now then (.skippedTrue, st2, tr2 ++ tr3)
          else (.ok, st2, tr2 ++ tr3 ++ [.limitOrder sym units])
      else
        if cooldownActive st now then (.skippedTrue, st, tr2)
        else (.ok, st, tr2 ++ [.limitOrder sym units])

end P3

namespace P4

/-- Module state of part_004: entry-based cooldown tracking. -/
structure State where
  lastEntryTime : Int
  lastEntrySide : Option Side
deriving DecidableEq, Repr

/-- Broker responses available to one part_004 request.  `posBodyAfter`
is what an openPositions read performed after the close would return —
the code never performs that read, which is what claim C1 probes. -/
structure Oracle where
  pending : List String
  posBody : RespBody
  posBody2 : RespBody
  closeFill : Bool
  posBodyAfter : RespBody
deriving DecidableEq, Repr

/-- Responses the part_004 webhook sends. -/
inductive Outcome
  | ok
  | skippedTrue
  | closeFailed
  | errorTrue
deriving DecidableEq, Repr

/-- COOLDOWN_MS of part_004. -/
def COOLDOWN_MS : Int := 8000

/-- FIXED_UNITS of part_004. -/
def FIXED_UNITS : Int := 25000

/-- `cooldownActive(side)` of part_004: only a same-side entry within
COOLDOWN_MS of the last entry is blocked; no recorded side means no
cooldown. -/
def cooldownActive (st : State) (now : Int) (side : Side) : Bool :=
  match st.lastEntrySide with
  | none => false
  | some s => if side ≠ s then false else now - st.lastEntryTime < COOLDOWN_MS

/-- `cancelAll(symbol)` of part_004 (identical to part_003). -/
def cancelTrace (o : Oracle) : List Call :=
  Call.getPendingOrders :: o.pending.map Call.cancelOrder

/-- The ENTRY path of part_004 (lines 204-256) for a resolved side:
same-side cooldown skip; cancelAll; getPosition; only an OPPOSITE open
position triggers closeAllSafe, whose failure aborts with
`{error:"close failed"}` and no placement; on success (or no opposite
position) the LIMIT order is placed — with no re-read of the position
after the close — and the entry time and side are recorded. -/
def entryCore (o : Oracle) (st : State) (now : Int) (side : Side)
    (sym : String) : Outcome × State × List Call :=
  let units : Int := if side = .long then FIXED_UNITS else -FIXED_UNITS
  if cooldownActive st now side then (.skippedTrue, st, [])
  else
    let tr1 := cancelTrace o
    match getPositionR sym o.posBody with
    | .error _ => (.errorTrue, st, tr1 ++ [.getOpenPositions])
    | .ok pos =>
      let tr2 := tr1 ++ [.getOpenPositions]
      let reversal : Bool := match pos with
        | none => false
        | some p =>
          (side == Side.long && decide (p.short < 0)) ||
          (side == Side.short && decide (p.long > 0))
      if reversal then
        match closeAllSafe sym o.posBody2 o.closeFill with
        | (none, tr3) => (.errorTrue, st, tr2 ++ tr3)
        | (some false, tr3) => (.closeFailed, st, tr2 ++ tr3)
        | (some true, tr3) =>
          (.ok, ⟨now, some side⟩, tr2 ++ tr3 ++ [.limitOrder sym units])
      else (.ok, ⟨now, some side⟩, tr2 ++ [.limitOrder sym units])

/-- The part_004 webhook on an entry alert: resolve the side
(LONG_LIMIT/SHORT_LIMIT, anything else skipped) and run `entryCore`. -/
def entry (o : Oracle) (st : State) (now : Int) (alert sym : String) :
    Outcome × State × List Call :=
  match (if alert = "LONG_LIMIT" then some Side.long
         else if alert = "SHORT_LIMIT" then some Side.short
         else none) with
  | none => (.skippedTrue, st, [])
  | some side => entryCore o st now side sym

/-- The ZONE_EXIT branch of part_004 (lines 182-199): cancelAll, then
closeAllSafe; a failure is a 500 `{error:"close failed"}`; on success
only `lastEntrySide` is cleared (no timestamp of the exit is recorded)
and `{ok:true}` is returned. -/
def exitZone (o : Oracle) (st : State) (sym : String) :
    Outcome × State × List Call :=
  let tr1 := cancelTrace o
  match closeAllSafe sym o.posBody2 o.closeFill with
  | (none, tr3) => (.errorTrue, st, tr1 ++ tr3)
  | (some false, tr3) => (.closeFailed, st, tr1 ++ tr3)
  | (some true, tr3) => (.ok, { st with lastEntrySide := none }, tr1 ++ tr3)

/-- Net units that a position re-read performed after the close would
report (`long + short` of the instrument entry, 0 when absent).  The
handler never issues this read. -/
def netAfterClose (sym : String) (o : Oracle) : Int :=
  match getPositionR sym o.posBodyAfter with
  | .ok (some p) => p.long + p.short
  | _ => 0

end P4

namespace Gate

/-- One atomic segment of a webhook request under the JS event loop:
`gate` is the synchronous `if (processing) return skip; processing=true`
prologue (no await can interleave inside it), `broker c` an awaited
broker call, `release` the `finally { processing = false }` epilogue. -/
inductive Seg
  | gate
  | broker (c : Call)
  | release
deriving DecidableEq, Repr

/-- Two concurrent requests A and B sharing the module-level
`processing` flag, with the trace of broker calls each has performed
(`false` tags A, `true` tags B) and whether each was rejected at the
gate. -/
structure Sys where
  processing : Bool
  progA : List Seg
  progB : List Seg
  trace : List (Bool × Call)
  skippedA : Bool
  skippedB : Bool
deriving DecidableEq, Repr

/-- Execute the next atomic segment of request A. -/
def stepA (s : Sys) : Sys :=
  match s.progA with
  | [] => s
  | Seg.gate :: rest =>
    if s.processing then { s with progA := [], skippedA := true }
    else { s with processing := true, progA := rest }
  | Seg.broker c :: rest =>
    { s with progA := rest, trace := s.trace ++ [(false, c)] }
  | Seg.release :: rest =>
    { s with processing := false, progA := rest }

/-- Execute the next atomic segment of request B. -/
def stepB (s : Sys) : Sys :=
  match s.progB with
  | [] => s
  | Seg.gate :: rest =>
    if s.processing then { s with progB := [], skippedB := true }
    else { s with processing := true, progB := rest }
  | Seg.broker c :: rest =>
    { s with progB := rest, trace := s.trace ++ [(true, c)] }
  | Seg.release :: rest =>
    { s with processing := false, progB := rest }

/-- Run one scheduled segment (`false` schedules A, `true` schedules B). -/
def step (w : Bool) (s : Sys) : Sys := if w then stepB s else stepA s

/-- Run a whole schedule. -/
def run (sched : List Bool) (s : Sys) : Sys :=
  sched.foldl (fun t w => step w t) s

/-- A webhook request body as a segment program: the gate, then its
broker calls, then the release in the `finally`. -/
def mkProg (cs : List Call) : List Seg :=
  Seg.gate :: cs.map Seg.broker ++ [Seg.release]

/-- Initial system: flag clear, both requests pending, empty trace. -/
def init (as bs : List Call) : Sys :=
  ⟨false, mkProg as, mkProg bs, [], false, false⟩

/-- The trace contains no broker call made by request B. -/
def bFree (tr : List (Bool × Call)) : Bool := tr.all fun e => !e.1

end Gate

/-- C9: formatting 150.1234 for USD_JPY (configured precision 3) yields
the wire string "150.123", and for EUR_USD (configured precision 5)
yields "150.12340". -/
theorem c9_price_precision :
    Fmt.fmtPrice (1501234 / 10000) "USD_JPY" = "150.123" ∧
    Fmt.fmtPrice (1501234 / 10000) "EUR_USD" = "150.12340" := by
  have h3 : (round ((1501234 / 10000 : ℚ) * (10 : ℚ) ^ (3 : ℕ))).toNat = 150123 := by
    norm_num [round_eq]
    rfl
  have h5 : (round ((1501234 / 10000 : ℚ) * (10 : ℚ) ^ (5 : ℕ))).toNat = 15012340 := by
    norm_num [round_eq]
    rfl
  constructor
  · show Fmt.fmtFixed (1501234 / 10000) 3 = "150.123"
    simp only [Fmt.fmtFixed, h3]
    rfl
  · show Fmt.fmtFixed (1501234 / 10000) 5 = "150.12340"
    simp only [Fmt.fmtFixed, h5]
    rfl

/-- C4: on an EXIT with a net-short broker position (long units 0, short
units -20000, the non-positive OANDA convention), the code computes
`closeUnits = long - short = 20000` and sends a MARKET order of
`-closeUnits = -20000`, i.e. a further sell that doubles the short,
whereas closing the net position `L + S = -20000` requires a buy of
`+20000`.  This evaluates the code at the failing input. -/
theorem c4_exit_doubles_short :
    V1.handle "EXIT" "USD_JPY" ⟨[⟨"USD_JPY", 0, -20000⟩]⟩ =
      (.positionClosed, [.getOpenPositions, .marketOrder "USD_JPY" (-20000)]) ∧
    -((0 : Int) + (-20000)) = 20000 ∧
    (-20000 : Int) ≠ -((0 : Int) + (-20000)) := by
  refine ⟨rfl, by decide, by decide⟩

/-- C10: in the substring-parsing variants, any payload with non-empty
alert and symbol whose alert contains neither "EXIT" nor "LONG" falls
through to the entry branch as a sell: a MARKET order of -FIXED_UNITS is
placed rather than the alert being rejected. -/
theorem c10_default_sell (alert symbol : String) (o : V1.Oracle)
    (ha : alert ≠ "") (hs : symbol ≠ "")
    (hexit : strIncludes alert "EXIT" = false)
    (hlong : strIncludes alert "LONG" = false) :
    V1.handle alert symbol o = (.orderExecuted, [.marketOrder symbol (-20000)]) := by
  unfold V1.handle
  rw [if_neg (by simp [ha, hs])]
  rw [hexit]
  simp [hlong, V1.FIXED_UNITS]

/-- C10 witness: the unrecognized alert "HELLO" with symbol USD_JPY is
executed as a MARKET sell of 20000 units. -/
theorem c10_default_sell_witness :
    V1.handle "HELLO" "USD_JPY" ⟨[]⟩ =
      (.orderExecuted, [.marketOrder "USD_JPY" (-20000)]) :=
  c10_default_sell "HELLO" "USD_JPY" ⟨[]⟩ (by decide) (by decide) (by decide) (by decide)

/-- C5 counterexample: with a fresh cooldown state, two EXIT signals for
USD_JPY handled 500 ms apart (well within the 3000 ms grace constant)
are BOTH executed: each returns ok and issues a closePosition call, and
the second is not skipped.  The grace check compares `now` against
`lastEntryTime` (written only by entries), not against any recorded
exit time. -/
theorem c5_counterexample :
    (let oS : V2.Oracle := ⟨.success, .success⟩
     let r1 := V2.handle 100000 "EXIT" "USD_JPY" V2.emptyState oS
     let r2 := V2.handle 100500 "EXIT" "USD_JPY" r1.2.1 oS
     r1.1 = .ok ∧ r1.2.2 = [.putClose "USD_JPY"] ∧
     r2.1 = .ok ∧ r2.2.2 = [.putClose "USD_JPY"] ∧
     r2.1 ≠ V2.Outcome.skipped "exit grace") :=
  ⟨rfl, rfl, rfl, rfl, by decide⟩

/-- C5 amended: an Exit is skipped (reason "entry cooldown") only when
it arrives within EXIT_COOLDOWN_MS of the last recorded ENTRY time; the
exit handler records nothing, so any two Exit signals each at least
EXIT_COOLDOWN_MS after the last entry both produce a closePosition call,
however close together they are. -/
theorem c5_exits_not_deduplicated (t1 t2 : Int) (sym : String)
    (st : V2.State) (o1 o2 : V2.Oracle)
    (h1 : ¬ t1 - ((st.lastEntryTime sym).getD 0) < V2.EXIT_COOLDOWN_MS)
    (h2 : ¬ t2 - ((st.lastEntryTime sym).getD 0) < V2.EXIT_COOLDOWN_MS) :
    V2.handle t1 "EXIT" sym st o1 = (.ok, st, [.putClose sym]) ∧
    V2.handle t2 "EXIT" sym (V2.handle t1 "EXIT" sym st o1).2.1 o2 =
      (.ok, st, [.putClose sym]) := by
  have e1 : V2.handle t1 "EXIT" sym st o1 = (.ok, st, [.putClose sym]) := by
    unfold V2.handle
    rw [if_pos rfl, if_neg h1]
  refine ⟨e1, ?_⟩
  rw [e1]
  unfold V2.handle
  rw [if_pos rfl, if_neg h2]

/-- C5 amended witness: with a fresh state, exits at t=100000 and
t=100500 (500 ms apart) each produce one closePosition call. -/
theorem c5_exits_not_deduplicated_witness :
    V2.handle 100000 "EXIT" "USD_JPY" V2.emptyState ⟨.success, .success⟩ =
      (.ok, V2.emptyState, [.putClose "USD_JPY"]) ∧
    V2.handle 100500 "EXIT" "USD_JPY"
      (V2.handle 100000 "EXIT" "USD_JPY" V2.emptyState ⟨.success, .success⟩).2.1
      ⟨.success, .success⟩ = (.ok, V2.emptyState, [.putClose "USD_JPY"]) :=
  c5_exits_not_deduplicated 100000 100500 "USD_JPY" V2.emptyState
    ⟨.success, .success⟩ ⟨.success, .success⟩ (by decide) (by decide)

/-- C6: two entry signals for the same symbol handled less than
ORDER_COOLDOWN_MS apart, the first passing the cooldown check and being
placed (successfully, per the oracle), result in exactly one LIMIT
placement: the second request is skipped with the cooldown reason
("order cooldown" in this variant) and performs no broker call. -/
theorem c6_cooldown_single_placement (t1 t2 : Int) (sym : String)
    (st : V2.State) (o1 o2 : V2.Oracle) (alert1 alert2 : String)
    (ha1 : alert1 = "LONG_LIMIT" ∨ alert1 = "SHORT_LIMIT")
    (ha2 : alert2 = "LONG_LIMIT" ∨ alert2 = "SHORT_LIMIT")
    (hplace : o1.placeResp = .success)
    (hcool : ¬ t1 - ((st.lastOrderTime sym).getD 0) < V2.ORDER_COOLDOWN_MS)
    (h2 : t2 - t1 < V2.ORDER_COOLDOWN_MS) :
    (V2.handle t2 alert2 sym (V2.handle t1 alert1 sym st o1).2.1 o2).1 =
        .skipped "order cooldown" ∧
    (V2.handle t2 alert2 sym (V2.handle t1 alert1 sym st o1).2.1 o2).2.2 = [] ∧
    countLimit ((V2.handle t1 alert1 sym st o1).2.2 ++
        (V2.handle t2 alert2 sym (V2.handle t1 alert1 sym st o1).2.1 o2).2.2) = 1 := by
  obtain ⟨u, e1⟩ : ∃ u : Int, V2.handle t1 alert1 sym st o1 =
      (.ok, ⟨V2.setTime st.lastOrderTime sym t1, V2.setTime st.lastEntryTime sym t1⟩,
       [.putClose sym, .limitOrder sym u]) := by
    rcases ha1 with h | h <;> subst h
    · refine ⟨20000, ?_⟩
      unfold V2.handle
      simp [hcool, V2.FIXED_UNITS]
    · refine ⟨-20000, ?_⟩
      unfold V2.handle
      simp [hcool, V2.FIXED_UNITS]
  rw [e1]
  have hc : t2 - ((V2.setTime st.lastOrderTime sym t1 sym).getD 0) <
      V2.ORDER_COOLDOWN_MS := by
    simp only [V2.setTime, if_pos rfl, Option.getD_some]
    exact h2
  rcases ha2 with h | h <;> subst h <;>
    · unfold V2.handle
      refine ⟨?_, ?_, ?_⟩ <;> simp [hc, countLimit, Call.isLimit]

/-- C6 witness: from a fresh state, a LONG_LIMIT at t=1000000 is placed
and a second LONG_LIMIT at t=1010000 (10 s later, within the 30 s
cooldown) is skipped; one LIMIT placement in total. -/
theorem c6_cooldown_single_placement_witness :
    (V2.handle 1010000 "LONG_LIMIT" "USD_JPY"
        (V2.handle 1000000 "LONG_LIMIT" "USD_JPY" V2.emptyState
          ⟨.success, .success⟩).2.1 ⟨.success, .success⟩).1 =
      .skipped "order cooldown" ∧
    (V2.handle 1010000 "LONG_LIMIT" "USD_JPY"
        (V2.handle 1000000 "LONG_LIMIT" "USD_JPY" V2.emptyState
          ⟨.success, .success⟩).2.1 ⟨.success, .success⟩).2.2 = [] ∧
    countLimit ((V2.handle 1000000 "LONG_LIMIT" "USD_JPY" V2.emptyState
          ⟨.success, .success⟩).2.2 ++
        (V2.handle 1010000 "LONG_LIMIT" "USD_JPY"
          (V2.handle 1000000 "LONG_LIMIT" "USD_JPY" V2.emptyState
            ⟨.success, .success⟩).2.1 ⟨.success, .success⟩).2.2) = 1 :=
  c6_cooldown_single_placement 1000000 1010000 "USD_JPY" V2.emptyState
    ⟨.success, .success⟩ ⟨.success, .success⟩ "LONG_LIMIT" "LONG_LIMIT"
    (Or.inl rfl) (Or.inl rfl) rfl (by decide) (by decide)

/-- C7 counterexample: an entry whose LIMIT placement comes back as a
400 response (the oracle's placeResp) still yields `{ok:true}`, sets
`lastOrderTime[USD_JPY]` from `none` to the request time, and an
immediate retry 1 s later is skipped by the cooldown — contradicting
the claim that the outcome is a failure, the cooldown timestamp is left
unchanged, and a retry is not blocked. -/
theorem c7_counterexample :
    (let r1 := V2.handle 1000000 "LONG_LIMIT" "USD_JPY" V2.emptyState
        ⟨.success, .httpError 400⟩
     r1.1 = .ok ∧
     V2.emptyState.lastOrderTime "USD_JPY" = none ∧
     r1.2.1.lastOrderTime "USD_JPY" = some 1000000 ∧
     (V2.handle 1001000 "LONG_LIMIT" "USD_JPY" r1.2.1
        ⟨.success, .success⟩).1 = .skipped "order cooldown") :=
  ⟨rfl, rfl, rfl, rfl⟩

/-- C7 amended: the handler never inspects the placement response: on a
placement failure it still answers ok, still records
`lastOrderTime[symbol] = now`, and an immediate retry of the same entry
IS blocked by the cooldown. -/
theorem c7_failed_placement_updates_cooldown (now t2 : Int) (sym : String)
    (st : V2.State) (o o2 : V2.Oracle) (status : Int)
    (hfail : o.placeResp = .httpError status)
    (hcool : ¬ now - ((st.lastOrderTime sym).getD 0) < V2.ORDER_COOLDOWN_MS)
    (h2 : t2 - now < V2.ORDER_COOLDOWN_MS) :
    (V2.handle now "LONG_LIMIT" sym st o).1 = .ok ∧
    (V2.handle now "LONG_LIMIT" sym st o).2.1.lastOrderTime sym = some now ∧
    (V2.handle t2 "LONG_LIMIT" sym (V2.handle now "LONG_LIMIT" sym st o).2.1 o2).1 =
      .skipped "order cooldown" := by
  have e1 : V2.handle now "LONG_LIMIT" sym st o =
      (.ok, ⟨V2.setTime st.lastOrderTime sym now, V2.setTime st.lastEntryTime sym now⟩,
       [.putClose sym, .limitOrder sym 20000]) := by
    unfold V2.handle
    simp [hcool, V2.FIXED_UNITS]
  rw [e1]
  have hc : t2 - ((V2.setTime st.lastOrderTime sym now sym).getD 0) <
      V2.ORDER_COOLDOWN_MS := by
    simp only [V2.setTime, if_pos rfl, Option.getD_some]
    exact h2
  refine ⟨rfl, by simp [V2.setTime], ?_⟩
  unfold V2.handle
  simp [hc]

/-- C7 amended witness: concrete instance at now=1000000, retry at
t=1001000 with a 400 placement response. -/
theorem c7_failed_placement_updates_cooldown_witness :
    (V2.handle 1000000 "LONG_LIMIT" "USD_JPY" V2.emptyState
        ⟨.success, .httpError 400⟩).1 = .ok ∧
    (V2.handle 1000000 "LONG_LIMIT" "USD_JPY" V2.emptyState
        ⟨.success, .httpError 400⟩).2.1.lastOrderTime "USD_JPY" = some 1000000 ∧
    (V2.handle 1001000 "LONG_LIMIT" "USD_JPY"
        (V2.handle 1000000 "LONG_LIMIT" "USD_JPY" V2.emptyState
          ⟨.success, .httpError 400⟩).2.1 ⟨.success, .success⟩).1 =
      .skipped "order cooldown" :=
  c7_failed_placement_updates_cooldown 1000000 1001000 "USD_JPY" V2.emptyState
    ⟨.success, .httpError 400⟩ ⟨.success, .success⟩ 400 rfl (by decide) (by decide)

/-- C8 counterexample: entry at t=1000000 succeeds; an EXIT at
t=1005000 succeeds but records nothing — `lastOrderTime[USD_JPY]` still
holds the entry time afterwards (there is no `lastExitTime` in this
variant and nothing is reset) — so an entry at t=1006000, immediately
after the exit, IS skipped by the entry cooldown, contradicting the
claim. -/
theorem c8_counterexample :
    (let oS : V2.Oracle := ⟨.success, .success⟩
     let r1 := V2.handle 1000000 "LONG_LIMIT" "USD_JPY" V2.emptyState oS
     let r2 := V2.handle 1005000 "EXIT" "USD_JPY" r1.2.1 oS
     let r3 := V2.handle 1006000 "LONG_LIMIT" "USD_JPY" r2.2.1 oS
     r1.1 = .ok ∧ r2.1 = .ok ∧
     r2.2.1.lastOrderTime "USD_JPY" = some 1000000 ∧
     r3.1 = .skipped "order cooldown") :=
  ⟨rfl, rfl, rfl, rfl⟩

/-- A list of non-LIMIT calls satisfies `noCloseAfterPlace`. -/
theorem noCloseAfterPlace_of_noLimit (l : List Call) (h : noLimit l = true) :
    noCloseAfterPlace l = true := by
  induction l with
  | nil => rfl
  | cons c rest ih =>
    simp only [noLimit, List.all_cons, Bool.and_eq_true] at h
    cases c <;> first
      | exact ih h.2
      | simp [Call.isLimit] at h

/-- Appending a single LIMIT call to a list of non-LIMIT calls keeps
`noCloseAfterPlace`. -/
theorem noCloseAfterPlace_append_limit (l : List Call) (s : String) (u : Int)
    (h : noLimit l = true) :
    noCloseAfterPlace (l ++ [Call.limitOrder s u]) = true := by
  induction l with
  | nil => rfl
  | cons c rest ih =>
    simp only [noLimit, List.all_cons, Bool.and_eq_true] at h
    cases c <;> first
      | exact ih h.2
      | simp [Call.isLimit] at h

/-- A list of non-LIMIT calls has no LIMIT placement. -/
theorem hasLimit_false_of_noLimit (l : List Call) (h : noLimit l = true) :
    hasLimit l = false := by
  simp only [noLimit, List.all_eq_true] at h
  simp only [hasLimit, List.any_eq_false]
  intro c hc
  simpa using h c hc

/-- `noLimit` is closed under append. -/
theorem noLimit_append (l m : List Call) (hl : noLimit l = true)
    (hm : noLimit m = true) : noLimit (l ++ m) = true := by
  simp only [noLimit, List.all_append, Bool.and_eq_true]
  exact ⟨hl, hm⟩

/-- The cancelAll trace of part_003 contains no LIMIT call. -/
theorem noLimit_cancelTraceP3 (o : P3.Oracle) :
    noLimit (P3.cancelTrace o) = true := by
  simp only [P3.cancelTrace, noLimit, List.all_cons, Bool.and_eq_true]
  refine ⟨by simp [Call.isLimit], ?_⟩
  induction o.pending with
  | nil => rfl
  | cons i rest ih => simpa [Call.isLimit] using ih

/-- The cancelAll trace of part_004 contains no LIMIT call. -/
theorem noLimit_cancelTraceP4 (o : P4.Oracle) :
    noLimit (P4.cancelTrace o) = true := by
  simp only [P4.cancelTrace, noLimit, List.all_cons, Bool.and_eq_true]
  refine ⟨by simp [Call.isLimit], ?_⟩
  induction o.pending with
  | nil => rfl
  | cons i rest ih => simpa [Call.isLimit] using ih

/-- The closeAllSafe trace contains no LIMIT call. -/
theorem noLimit_closeAllSafe (sym : String) (b : RespBody) (f : Bool) :
    noLimit (closeAllSafe sym b f).2 = true := by
  cases b with
  | networkThrow => rfl
  | otherJson => rfl
  | notJson => rfl
  | positionsPayload l =>
    unfold closeAllSafe getPositionR
    dsimp only [parsePositions]
    cases hf : l.find? fun p => p.instrument == sym with
    | none => rfl
    | some p =>
      dsimp only
      by_cases hu :
          (if p.short < 0 then -p.short else if p.long > 0 then -p.long else 0 : Int) = 0
      · rw [if_pos hu]
        rfl
      · rw [if_neg hu]
        simp [noLimit, Call.isLimit]

/-- `[getOpenPositions]` has no LIMIT call. -/
theorem noLimit_getOpen : noLimit [Call.getOpenPositions] = true := rfl

/-- C3 counterexample: a LONG_LIMIT entry whose openPositions read comes
back unusable (unparseable body, as also happens for a non-2xx error
body) is NOT aborted: part_003 fetchJSON swallows the failure, the
position reads as absent, the outcome is `{ok:true}` (no
broker-unavailable failure exists in this variant), and the LIMIT order
is placed on the basis of the absent position data. -/
theorem c3_counterexample :
    (let o : P3.Oracle := ⟨[], .notJson, .notJson, true⟩
     let r := P3.entry o ⟨0⟩ 1000000 "LONG_LIMIT" "USD_JPY"
     r.1 = .ok ∧ r.1 ≠ .errorTrue ∧ hasLimit r.2.2 = true) :=
  ⟨rfl, by decide, rfl⟩

/-- C3 amended: a failed position read is silently swallowed.  On a
non-2xx JSON error body or an unparseable body, fetchJSON returns the
error object or `{}`, getPosition reports no position, and the entry
proceeds to place the LIMIT order with outcome ok; only a rejected fetch
promise (thrown network error) aborts the request, and then as a generic
500 `{error:true}` with no order placed. -/
theorem c3_swallowed_read_failure (o : P3.Oracle) (st : P3.State) (now : Int)
    (sym alert : String)
    (ha : alert = "LONG_LIMIT" ∨ alert = "SHORT_LIMIT")
    (hcool : P3.cooldownActive st now = false) :
    ((o.posBody = .otherJson ∨ o.posBody = .notJson) →
      (P3.entry o st now alert sym).1 = .ok ∧
      hasLimit (P3.entry o st now alert sym).2.2 = true) ∧
    (o.posBody = .networkThrow →
      (P3.entry o st now alert sym).1 = .errorTrue ∧
      hasLimit (P3.entry o st now alert sym).2.2 = false) := by
  have hnl : noLimit (P3.cancelTrace o ++ [Call.getOpenPositions]) = true :=
    noLimit_append _ _ (noLimit_cancelTraceP3 o) noLimit_getOpen
  have hnf := hasLimit_false_of_noLimit _ hnl
  constructor
  · rintro (hb | hb) <;> rcases ha with h | h <;> subst h <;>
    · unfold P3.entry
      rw [hb]
      simp [hcool, P3.FIXED_UNITS, getPositionR, parsePositions,
            hasLimit, Call.isLimit]
  · intro hb
    rcases ha with h | h <;> subst h <;>
    · unfold P3.entry
      rw [hb]
      refine ⟨by simp [hcool, P3.FIXED_UNITS, getPositionR], ?_⟩
      simp only [hcool, P3.FIXED_UNITS, getPositionR]
      simpa using hnf

/-- C3 amended witness: a 401-style JSON error body lets the entry
proceed to placement with ok; a thrown network error yields the generic
500 with no placement. -/
theorem c3_swallowed_read_failure_witness :
    ((P3.entry ⟨[], .otherJson, .notJson, true⟩ ⟨0⟩ 1000000 "LONG_LIMIT"
        "USD_JPY").1 = .ok ∧
      hasLimit (P3.entry ⟨[], .otherJson, .notJson, true⟩ ⟨0⟩ 1000000 "LONG_LIMIT"
        "USD_JPY").2.2 = true) ∧
    ((P3.entry ⟨[], .networkThrow, .notJson, true⟩ ⟨0⟩ 1000000 "LONG_LIMIT"
        "USD_JPY").1 = .errorTrue ∧
      hasLimit (P3.entry ⟨[], .networkThrow, .notJson, true⟩ ⟨0⟩ 1000000 "LONG_LIMIT"
        "USD_JPY").2.2 = false) :=
  ⟨(c3_swallowed_read_failure ⟨[], .otherJson, .notJson, true⟩ ⟨0⟩ 1000000
      "USD_JPY" "LONG_LIMIT" (Or.inl rfl) (by decide)).1 (Or.inl rfl),
   (c3_swallowed_read_failure ⟨[], .networkThrow, .notJson, true⟩ ⟨0⟩ 1000000
      "USD_JPY" "LONG_LIMIT" (Or.inl rfl) (by decide)).2 rfl⟩

/-- C1 counterexample: a LONG_LIMIT reversal entry against a short
position of -25000 units whose close order reports a fill, but where a
position read performed after the close would still report -25000 net
units, nevertheless places the LIMIT order: the code performs no
post-close re-verification, contradicting the claim that a non-zero
re-verified position suppresses the placement. -/
theorem c1_counterexample :
    (let p : BrokerPos := ⟨"USD_JPY", 0, -25000⟩
     let o : P4.Oracle := ⟨[], .positionsPayload [p], .positionsPayload [p], true,
       .positionsPayload [p]⟩
     let r := P4.entry o ⟨0, none⟩ 1000000 "LONG_LIMIT" "USD_JPY"
     P4.netAfterClose "USD_JPY" o ≠ 0 ∧ hasLimit r.2.2 = true ∧ r.1 = .ok) :=
  ⟨by decide, rfl, rfl⟩

/-- C1 amended: on every part_004 entry request, no close (MARKET)
order follows a LIMIT placement in the trace — the reversal close is
always issued before the placement — and whenever the request reports
close failure no LIMIT order is placed; but the only success criterion
is the fill transaction in the close response itself (no bounded
re-verification of the position exists). -/
theorem c1_close_before_place (o : P4.Oracle) (st : P4.State) (now : Int)
    (alert sym : String) :
    noCloseAfterPlace (P4.entry o st now alert sym).2.2 = true ∧
    ((P4.entry o st now alert sym).1 = .closeFailed →
      hasLimit (P4.entry o st now alert sym).2.2 = false) := by
  have hnl2 : noLimit (P4.cancelTrace o ++ [Call.getOpenPositions]) = true :=
    noLimit_append _ _ (noLimit_cancelTraceP4 o) noLimit_getOpen
  have core : ∀ side : Side,
      noCloseAfterPlace (P4.entryCore o st now side sym).2.2 = true ∧
      ((P4.entryCore o st now side sym).1 = .closeFailed →
        hasLimit (P4.entryCore o st now side sym).2.2 = false) := by
    intro side
    unfold P4.entryCore
    by_cases hcd : P4.cooldownActive st now side = true
    · rw [if_pos hcd]
      exact ⟨rfl, fun h => nomatch h⟩
    · rw [if_neg hcd]
      cases hgp : getPositionR sym o.posBody with
      | error e =>
        dsimp only
        exact ⟨noCloseAfterPlace_of_noLimit _ hnl2, fun h => nomatch h⟩
      | ok pos =>
        cases pos with
        | none =>
          dsimp only
          exact ⟨noCloseAfterPlace_append_limit _ _ _ hnl2, fun h => nomatch h⟩
        | some p =>
          dsimp only
          by_cases hrev : ((side == Side.long && decide (p.short < 0)) ||
              (side == Side.short && decide (p.long > 0))) = true
          · rw [if_pos hrev]
            rcases hcs : closeAllSafe sym o.posBody2 o.closeFill with ⟨ob, tr3⟩
            have htr3 : noLimit tr3 = true := by
              have h := noLimit_closeAllSafe sym o.posBody2 o.closeFill
              rw [hcs] at h
              exact h
            cases ob with
            | none =>
              dsimp only
              exact ⟨noCloseAfterPlace_of_noLimit _ (noLimit_append _ _ hnl2 htr3),
                     fun h => nomatch h⟩
            | some b =>
              cases b with
              | false =>
                dsimp only
                exact ⟨noCloseAfterPlace_of_noLimit _ (noLimit_append _ _ hnl2 htr3),
                       fun _ => hasLimit_false_of_noLimit _ (noLimit_append _ _ hnl2 htr3)⟩
              | true =>
                dsimp only
                exact ⟨noCloseAfterPlace_append_limit _ _ _ (noLimit_append _ _ hnl2 htr3),
                       fun h => nomatch h⟩
          · rw [if_neg hrev]
            exact ⟨noCloseAfterPlace_append_limit _ _ _ hnl2, fun h => nomatch h⟩
  unfold P4.entry
  split
  · exact ⟨rfl, fun h => nomatch h⟩
  · exact core _

/-- C1 amended witness: at the concrete reversal whose close reports no
fill transaction, the trace satisfies the ordering invariant and the
close failure suppresses the placement. -/
theorem c1_close_before_place_witness :
    noCloseAfterPlace
      (P4.entry ⟨[], .positionsPayload [⟨"USD_JPY", 0, -25000⟩],
        .positionsPayload [⟨"USD_JPY", 0, -25000⟩], false,
        .positionsPayload [⟨"USD_JPY", 0, -25000⟩]⟩ ⟨0, none⟩ 1000000
        "LONG_LIMIT" "USD_JPY").2.2 = true ∧
    hasLimit
      (P4.entry ⟨[], .positionsPayload [⟨"USD_JPY", 0, -25000⟩],
        .positionsPayload [⟨"USD_JPY", 0, -25000⟩], false,
        .positionsPayload [⟨"USD_JPY", 0, -25000⟩]⟩ ⟨0, none⟩ 1000000
        "LONG_LIMIT" "USD_JPY").2.2 = false :=
  ⟨(c1_close_before_place ⟨[], .positionsPayload [⟨"USD_JPY", 0, -25000⟩],
      .positionsPayload [⟨"USD_JPY", 0, -25000⟩], false,
      .positionsPayload [⟨"USD_JPY", 0, -25000⟩]⟩ ⟨0, none⟩ 1000000
      "LONG_LIMIT" "USD_JPY").1,
   (c1_close_before_place ⟨[], .positionsPayload [⟨"USD_JPY", 0, -25000⟩],
      .positionsPayload [⟨"USD_JPY", 0, -25000⟩], false,
      .positionsPayload [⟨"USD_JPY", 0, -25000⟩]⟩ ⟨0, none⟩ 1000000
      "LONG_LIMIT" "USD_JPY").2 rfl⟩

/-- C8 amended: on every ZONE_EXIT whose close succeeds, part_004
clears `lastEntrySide` (recording no exit timestamp; no `lastOrderTime`
or `lastExitTime` exists in this variant), which makes the entry
cooldown inactive for every side and time, so an entry arriving
immediately afterwards is not blocked by it. -/
theorem c8_zone_exit_clears_cooldown (o : P4.Oracle) (st : P4.State)
    (sym : String)
    (hsucc : (closeAllSafe sym o.posBody2 o.closeFill).1 = some true) :
    (P4.exitZone o st sym).1 = .ok ∧
    (P4.exitZone o st sym).2.1.lastEntrySide = none ∧
    ∀ (now2 : Int) (side : Side),
      P4.cooldownActive (P4.exitZone o st sym).2.1 now2 side = false := by
  rcases hcs : closeAllSafe sym o.posBody2 o.closeFill with ⟨ob, tr3⟩
  rw [hcs] at hsucc
  have hob : ob = some true := hsucc
  subst hob
  unfold P4.exitZone
  rw [hcs]
  exact ⟨rfl, rfl, fun now2 side => rfl⟩

/-- C8 amended witness: a same-side entry 100 ms after a successful
ZONE_EXIT that followed an entry recorded 100 ms before it is not
blocked by the cooldown (without the exit it would be). -/
theorem c8_zone_exit_clears_cooldown_witness :
    (P4.exitZone ⟨[], .positionsPayload [], .positionsPayload [], true,
        .otherJson⟩ ⟨500, some Side.long⟩ "USD_JPY").1 = .ok ∧
    P4.cooldownActive
      (P4.exitZone ⟨[], .positionsPayload [], .positionsPayload [], true,
        .otherJson⟩ ⟨500, some Side.long⟩ "USD_JPY").2.1 600 Side.long = false :=
  ⟨(c8_zone_exit_clears_cooldown ⟨[], .positionsPayload [], .positionsPayload [],
      true, .otherJson⟩ ⟨500, some Side.long⟩ "USD_JPY" rfl).1,
   (c8_zone_exit_clears_cooldown ⟨[], .positionsPayload [], .positionsPayload [],
      true, .otherJson⟩ ⟨500, some Side.long⟩ "USD_JPY" rfl).2.2 600 Side.long⟩

/-- Running a concatenated schedule runs the pieces in sequence. -/
theorem gate_run_append (l1 l2 : List Bool) (s : Gate.Sys) :
    Gate.run (l1 ++ l2) s = Gate.run l2 (Gate.run l1 s) := by
  simp [Gate.run, List.foldl_append]

/-- A step of request A leaves the B program, the B outcome, and the
B-freeness of the trace intact. -/
theorem gate_stepA_preserves (s : Gate.Sys) :
    (Gate.stepA s).progB = s.progB ∧ (Gate.stepA s).skippedB = s.skippedB ∧
    (Gate.bFree s.trace = true → Gate.bFree (Gate.stepA s).trace = true) := by
  unfold Gate.stepA
  cases hp : s.progA with
  | nil => exact ⟨rfl, rfl, id⟩
  | cons seg rest =>
    cases seg with
    | gate =>
      dsimp only
      by_cases hb : s.processing = true
      · rw [if_pos hb]
        exact ⟨rfl, rfl, id⟩
      · rw [if_neg hb]
        exact ⟨rfl, rfl, id⟩
    | broker c =>
      refine ⟨rfl, rfl, fun h => ?_⟩
      simp only [Gate.bFree, List.all_append] at h ⊢
      simp [h]
    | release => exact ⟨rfl, rfl, id⟩

/-- Request B with an exhausted program is inert. -/
theorem gate_stepB_dead (s : Gate.Sys) (hB : s.progB = []) :
    Gate.stepB s = s := by
  unfold Gate.stepB
  rw [hB]

/-- A schedule containing only A steps does not touch the B program,
the B outcome, or the B-freeness of the trace. -/
theorem gate_runA_only (sched : List Bool) (hA : ∀ w ∈ sched, w = false)
    (s : Gate.Sys) :
    (Gate.run sched s).progB = s.progB ∧
    (Gate.run sched s).skippedB = s.skippedB ∧
    (Gate.bFree s.trace = true → Gate.bFree (Gate.run sched s).trace = true) := by
  induction sched generalizing s with
  | nil => exact ⟨rfl, rfl, id⟩
  | cons w rest ih =>
    have hw : w = false := hA w (by simp)
    subst hw
    have hrun : Gate.run (false :: rest) s = Gate.run rest (Gate.stepA s) := rfl
    rw [hrun]
    have hpres := gate_stepA_preserves s
    have hih := ih (fun w hw => hA w (by simp [hw])) (Gate.stepA s)
    exact ⟨hih.1.trans hpres.1, hih.2.1.trans hpres.2.1,
           fun h => hih.2.2 (hpres.2.2 h)⟩

/-- Once the B program is exhausted, any further schedule leaves the B
outcome fixed and adds only A calls to the trace. -/
theorem gate_run_bdead (sched : List Bool) (s : Gate.Sys)
    (hB : s.progB = []) :
    (Gate.run sched s).progB = [] ∧
    (Gate.run sched s).skippedB = s.skippedB ∧
    (Gate.bFree s.trace = true → Gate.bFree (Gate.run sched s).trace = true) := by
  induction sched generalizing s with
  | nil => exact ⟨hB, rfl, id⟩
  | cons w rest ih =>
    cases w with
    | false =>
      have hrun : Gate.run (false :: rest) s = Gate.run rest (Gate.stepA s) := rfl
      rw [hrun]
      have hpres := gate_stepA_preserves s
      have hih := ih (Gate.stepA s) (hpres.1.trans hB)
      exact ⟨hih.1, hih.2.1.trans hpres.2.1, fun h => hih.2.2 (hpres.2.2 h)⟩
    | true =>
      have hrun : Gate.run (true :: rest) s = Gate.run rest (Gate.stepB s) := rfl
      rw [hrun, gate_stepB_dead s hB]
      exact ih s hB

/-- C2: if request B takes its first step (its synchronous gate check)
at a moment when request A is mid-flight — A has set the `processing`
flag and not yet released it — then B is rejected at the gate with a
skipped outcome, is never queued, and performs no broker call in the
whole remaining execution: every broker call in the trace belongs to A,
so at most one of the two simultaneous requests mutates the broker. -/
theorem c2_gate_excludes_second (as bs : List Call) (sched1 sched2 : List Bool)
    (hA : ∀ w ∈ sched1, w = false)
    (hMid : (Gate.run sched1 (Gate.init as bs)).processing = true) :
    (Gate.run (sched1 ++ true :: sched2) (Gate.init as bs)).skippedB = true ∧
    Gate.bFree (Gate.run (sched1 ++ true :: sched2) (Gate.init as bs)).trace
      = true := by
  have h1 := gate_runA_only sched1 hA (Gate.init as bs)
  rw [gate_run_append]
  set s1 := Gate.run sched1 (Gate.init as bs) with hs1
  have hrun : Gate.run (true :: sched2) s1 = Gate.run sched2 (Gate.stepB s1) := rfl
  rw [hrun]
  have hpB : s1.progB = Gate.mkProg bs := h1.1
  have htr : Gate.bFree s1.trace = true := h1.2.2 rfl
  have hstep : Gate.stepB s1 = { s1 with progB := [], skippedB := true } := by
    unfold Gate.stepB
    rw [hpB]
    unfold Gate.mkProg
    exact if_pos hMid
  rw [hstep]
  have hd := gate_run_bdead sched2 { s1 with progB := [], skippedB := true } rfl
  exact ⟨hd.2.1.trans rfl, hd.2.2 htr⟩

/-- C2 witness: A gates first (schedule step `false`), B arrives while A
is mid-flight, and in the final state B is skipped and the trace holds
only A calls. -/
theorem c2_gate_excludes_second_witness :
    (Gate.run ([false] ++ true :: [false, false, false])
        (Gate.init [Call.getOpenPositions, Call.limitOrder "USD_JPY" 25000]
          [Call.getOpenPositions, Call.limitOrder "USD_JPY" 25000])).skippedB
      = true ∧
    Gate.bFree (Gate.run ([false] ++ true :: [false, false, false])
        (Gate.init [Call.getOpenPositions, Call.limitOrder "USD_JPY" 25000]
          [Call.getOpenPositions, Call.limitOrder "USD_JPY" 25000])).trace
      = true :=
  c2_gate_excludes_second
    [Call.getOpenPositions, Call.limitOrder "USD_JPY" 25000]
    [Call.getOpenPositions, Call.limitOrder "USD_JPY" 25000]
    [false] [false, false, false] (by decide) (by decide)
